import Mathlib

/-!
# FinShield backend: token lifecycle and mail proxy routes

A shallow embedding of `src/index.js`.  The program is an Express application
with one module-level variable, `tokenStore`, and five asynchronous route
handlers that call two external collaborators: the OAuth2 client of the
`simple-oauth2` package and the HTTP client `fetch`.

Modelling decisions.

* The module variable `tokenStore` is the `tokenStore` field of `State`.
  `State.trace` is a ghost log of every external call the program has issued,
  in issue order; the program never reads it.
* The collaborators are the fields of `World`.  Each answers a call either
  with a value or by throwing (`Except String _`, the string being the
  `message` of the thrown `Error`).  Each answer may depend on all the calls
  issued before it, so stateful providers (a message that exists for the first
  delete and is gone for the second, a delete that throws on the third call)
  are covered.
* A route handler is run from start to finish without interleaving with
  another handler.  An `HttpResponse` is the status and the body the route
  answers with.  Where the handler sets a fixed status (200 or 500) Express
  sends the body it is given; where the status comes from the provider
  (`res.status(response.status).send(errorText)`) the answer goes through
  `send`, which empties the body for the statuses that carry none.  The
  inbound request is taken to carry no conditional headers.
* `expired()` is evaluated at most once per handler run; the clock reading it
  sees is the argument `now`.
-/

namespace FinShield

/-! ## JavaScript values -/

/-- The values `response.json()` can produce, together with `undefined`
(the result of reading a property that is absent).  A number is represented
by its JavaScript string rendering, which is canonical: two JSON numbers are
the same JavaScript number exactly when they render alike, and the only falsy
number JSON can produce renders as `0`. -/
inductive JsValue where
  | undefined : JsValue
  | null : JsValue
  | bool (b : Bool) : JsValue
  | num (rendering : String) : JsValue
  | str (s : String) : JsValue
  | arr (items : List JsValue) : JsValue
  | obj (fields : List (String × JsValue)) : JsValue

/-- JavaScript `ToBoolean`, as used by `data.value || []`. -/
def truthy : JsValue → Bool
  | .undefined => false
  | .null => false
  | .bool b => b
  | .num r => r != "0"
  | .str s => s != ""
  | .arr _ => true
  | .obj _ => true

/-- The own property `k` of a parsed JSON object: `JSON.parse` keeps the last
of several members with the same name. -/
def lookupField (k : String) : List (String × JsValue) → JsValue
  | [] => .undefined
  | (k', v) :: rest =>
    match lookupField k rest with
    | .undefined => if k' = k then v else .undefined
    | later => later

/-- The property read `v.k` for the two names the program reads, `value` and
`id`, neither of which is defined on a prototype of a JSON value: reading from
`null` or `undefined` throws a `TypeError`, an object yields its member, every
other value yields `undefined`. -/
def getProp (v : JsValue) (k : String) : Except String JsValue :=
  match v with
  | .undefined => .error ("Cannot read properties of undefined (reading \x27" ++ k ++ "\x27)")
  | .null => .error ("Cannot read properties of null (reading \x27" ++ k ++ "\x27)")
  | .obj fields => .ok (lookupField k fields)
  | _ => .ok .undefined

mutual
/-- JavaScript `ToString`, as applied by a template literal. -/
def templateStr : JsValue → String
  | .undefined => "undefined"
  | .null => "null"
  | .bool b => if b then "true" else "false"
  | .num r => r
  | .str s => s
  | .arr items => joinItems items
  | .obj _ => "[object Object]"
/-- The rendering of an array by `Array.prototype.join`: the items separated
by commas, `null` and `undefined` rendered as nothing. -/
def joinItems : List JsValue → String
  | [] => ""
  | [x] => joinItem x
  | x :: y :: rest => joinItem x ++ "," ++ joinItems (y :: rest)
/-- One item of an array rendering. -/
def joinItem : JsValue → String
  | .undefined => ""
  | .null => ""
  | .bool b => if b then "true" else "false"
  | .num r => r
  | .str s => s
  | .arr items => joinItems items
  | .obj _ => "[object Object]"
end

/-- The items a `for (const mail of mails)` loop visits: the elements of an
array, the code points of a string (each a one-character string); any other
value is not iterable and the loop throws a `TypeError` before its first
turn. -/
def iterate : JsValue → Except String (List JsValue)
  | .arr items => .ok items
  | .str s => .ok (s.data.map fun c => .str (String.singleton c))
  | _ => .error "mails is not iterable"

/-- The number of UTF-16 code units of a string, which is what `.length`
reports for it. -/
def utf16Length (s : String) : Nat :=
  (s.data.map fun c => if c.val.toNat < 65536 then 1 else 2).sum

/-- The property read `mails.length` for a value the loop could iterate. -/
def lengthOf : JsValue → JsValue
  | .arr items => .num (toString items.length)
  | .str s => .num (toString (utf16Length s))
  | _ => .undefined

/-! ## The OAuth2 client (`simple-oauth2`) -/

/-- The token data the identity provider issues, as `simple-oauth2` keeps it
in `AccessToken.token`; `expires_at` is a point on the clock. -/
structure Token where
  access_token : String
  refresh_token : String
  expires_at : Nat
  deriving DecidableEq, Repr

/-- The `AccessToken` object of `simple-oauth2`; `tokenStore` holds one. -/
structure AccessToken where
  token : Token
  deriving DecidableEq, Repr

/-- The library call `oauth2Client.createToken(token)`: wraps token data that
already carries its expiry into an `AccessToken`. -/
def createToken (t : Token) : AccessToken := ⟨t⟩

/-- The library call `tokenStore.expired()` at clock reading `now`: the token
is expired once its expiry is not in the future. -/
def AccessToken.expired (t : AccessToken) (now : Nat) : Bool :=
  decide (t.token.expires_at ≤ now)

/-- The argument of `oauth2Client.getToken`. -/
structure GetTokenOptions where
  code : Option String
  redirect_uri : Option String
  scope : String
  deriving DecidableEq, Repr

/-! ## The HTTP client (`node-fetch`) -/

/-- The HTTP methods the program uses with `fetch`. -/
inductive Method where
  | GET
  | DELETE
  deriving DecidableEq, Repr

/-- A `fetch(url, options)` call: the method (GET when none is given), the
URL and the `Authorization` header. -/
structure FetchRequest where
  method : Method
  url : String
  authorization : String
  deriving DecidableEq, Repr

/-- What the program reads of a `fetch` response: its status, and the results
of `response.text()` and `response.json()`, either of which may throw. -/
structure FetchResponse where
  status : Nat
  text : Except String String
  json : Except String JsValue

/-! ## External calls, the world, the program state -/

/-- An external call issued by the program. -/
inductive Call where
  | getToken (options : GetTokenOptions) : Call
  | refresh (held : AccessToken) : Call
  | fetch (request : FetchRequest) : Call
  deriving DecidableEq, Repr

/-- The environment of the program: the configured redirect target
(`process.env.REDIRECT_URI`) and the answers of the identity provider and of
the mail API.  The first argument of each answer is the list of calls issued
before this one. -/
structure World where
  redirectUri : Option String
  getToken : List Call → GetTokenOptions → Except String AccessToken
  refresh : List Call → AccessToken → Except String AccessToken
  fetch : List Call → FetchRequest → Except String FetchResponse

/-- The program state: the module variable `tokenStore` (`none` is the
initial `null`) and the ghost log of external calls. -/
structure State where
  tokenStore : Option AccessToken
  trace : List Call
  deriving DecidableEq, Repr

/-- The state after issuing one more external call. -/
def State.log (s : State) (c : Call) : State :=
  { s with trace := s.trace ++ [c] }

/-- The state at process start: `let tokenStore = null`, no call issued. -/
def State.initial : State := ⟨none, []⟩

/-! ## What a route answers -/

/-- The body of a response: text sent by `res.send`, or a value sent by
`res.json`. -/
inductive Body where
  | text (s : String) : Body
  | json (v : JsValue) : Body

/-- The status set by `res.status` (200 when it is not called) and the body. -/
structure HttpResponse where
  status : Nat
  body : Body

/-- A `catch (err)` block of a mail route: `res.status(500).send(err.message)`. -/
def sendError (message : String) : HttpResponse := ⟨500, .text message⟩

/-- The answer to `res.status(status).send(body)` for a status that is not
fixed in the program: Express sends the body as given, except that it sends
an empty body when the status is 204, 205 or 304. -/
def send (status : Nat) (body : String) : HttpResponse :=
  ⟨status, .text (if status = 204 ∨ status = 205 ∨ status = 304 then "" else body)⟩

/-! ## The program -/

/-- The scope string of the login and callback routes. -/
def scope : String := "https://graph.microsoft.com/Mail.ReadWrite offline_access"

/-- The list query of `/mails/red` and `/mails/red/delete-all`. -/
def listUrl : String :=
  "https://graph.microsoft.com/v1.0/me/mailFolders/inbox/messages?$filter=categories/any(c:c eq \x27Red\x27)&$top=50"

/-- The URL of one message, `https://graph.microsoft.com/v1.0/me/messages/${id}`. -/
def messageUrl (id : String) : String :=
  "https://graph.microsoft.com/v1.0/me/messages/" ++ id

/-- The header value `Bearer ${accessToken}`. -/
def bearer (accessToken : String) : String := "Bearer " ++ accessToken

/-- The handler of `GET /auth/callback` (index.js 52-65), given
`req.query.code`. -/
def authCallback (w : World) (code : Option String) (s : State) : HttpResponse × State :=
  let options : GetTokenOptions := ⟨code, w.redirectUri, scope⟩
  match w.getToken s.trace options with
  | .ok accessToken =>
    (⟨200, .text "Auth successful! You can close this tab."⟩,
      { (s.log (.getToken options)) with tokenStore := some (createToken accessToken.token) })
  | .error _ => (⟨500, .text "Authentication failed"⟩, s.log (.getToken options))

/-- The helper `getValidAccessToken` (index.js 68-76): its result or the
message of the error it throws, and the state it leaves. -/
def getValidAccessToken (w : World) (now : Nat) (s : State) : Except String String × State :=
  match s.tokenStore with
  | none => (.error "No token stored, please authenticate first", s)
  | some held =>
    if held.expired now then
      match w.refresh s.trace held with
      | .ok fresh =>
        (.ok fresh.token.access_token, { (s.log (.refresh held)) with tokenStore := some fresh })
      | .error message => (.error message, s.log (.refresh held))
    else (.ok held.token.access_token, s)

/-- The handler of `GET /mails/red` (index.js 79-91). -/
def mailsRed (w : World) (now : Nat) (s : State) : HttpResponse × State :=
  match getValidAccessToken w now s with
  | (.error message, s1) => (sendError message, s1)
  | (.ok accessToken, s1) =>
    let request : FetchRequest := ⟨.GET, listUrl, bearer accessToken⟩
    let s2 := s1.log (.fetch request)
    match w.fetch s1.trace request with
    | .error message => (sendError message, s2)
    | .ok response =>
      match response.json with
      | .error message => (sendError message, s2)
      | .ok data =>
        match getProp data "value" with
        | .error message => (sendError message, s2)
        | .ok value => (⟨200, .json (if truthy value then value else .arr [])⟩, s2)

/-- The handler of `DELETE /mails/:id` (index.js 94-112), given
`req.params.id`. -/
def deleteMail (w : World) (now : Nat) (messageId : String) (s : State) : HttpResponse × State :=
  match getValidAccessToken w now s with
  | (.error message, s1) => (sendError message, s1)
  | (.ok accessToken, s1) =>
    let request : FetchRequest := ⟨.DELETE, messageUrl messageId, bearer accessToken⟩
    let s2 := s1.log (.fetch request)
    match w.fetch s1.trace request with
    | .error message => (sendError message, s2)
    | .ok response =>
      if response.status = 204 then (⟨200, .text "Mail deleted successfully"⟩, s2)
      else
        match response.text with
        | .error message => (sendError message, s2)
        | .ok errorText => (send response.status errorText, s2)

/-- The delete request the loop of `/mails/red/delete-all` issues for an item
whose property `id` is `id`. -/
def deleteRequest (accessToken : String) (id : JsValue) : FetchRequest :=
  ⟨.DELETE, messageUrl (templateStr id), bearer accessToken⟩

/-- The loop `for (const mail of mails) { await fetch(delUrl, ..) }`
(index.js 126-133) over the items still to visit: `.ok ()` when it runs to
its end, the message of the error that ended it otherwise. -/
def deleteLoop (w : World) (accessToken : String) : List JsValue → State → Except String Unit × State
  | [], s => (.ok (), s)
  | mail :: rest, s =>
    match getProp mail "id" with
    | .error message => (.error message, s)
    | .ok id =>
      match w.fetch s.trace (deleteRequest accessToken id) with
      | .error message => (.error message, s.log (.fetch (deleteRequest accessToken id)))
      | .ok _ => deleteLoop w accessToken rest (s.log (.fetch (deleteRequest accessToken id)))

/-- The handler of `DELETE /mails/red/delete-all` (index.js 115-138). -/
def deleteAll (w : World) (now : Nat) (s : State) : HttpResponse × State :=
  match getValidAccessToken w now s with
  | (.error message, s1) => (sendError message, s1)
  | (.ok accessToken, s1) =>
    let request : FetchRequest := ⟨.GET, listUrl, bearer accessToken⟩
    let s2 := s1.log (.fetch request)
    match w.fetch s1.trace request with
    | .error message => (sendError message, s2)
    | .ok response =>
      match response.json with
      | .error message => (sendError message, s2)
      | .ok data =>
        match getProp data "value" with
        | .error message => (sendError message, s2)
        | .ok value =>
          let mails := if truthy value then value else .arr []
          match iterate mails with
          | .error message => (sendError message, s2)
          | .ok items =>
            match deleteLoop w accessToken items s2 with
            | (.error message, s3) => (sendError message, s3)
            | (.ok _, s3) =>
              (⟨200, .text ("Deleted " ++ templateStr (lengthOf mails) ++ " Red category mails")⟩, s3)

/-- The external call the loop issues for a listed item that is an object
with the members `fields`. -/
def deleteCall (accessToken : String) (fields : List (String × JsValue)) : Call :=
  .fetch (deleteRequest accessToken (lookupField "id" fields))

/-! ## Sample worlds -/

/-- A Credential as issued for the authorization code `abc`. -/
def issuedToken : AccessToken := ⟨⟨"at-1", "rt-1", 3600⟩⟩

/-- A Credential as issued by a refresh exchange. -/
def refreshedToken : AccessToken := ⟨⟨"at-2", "rt-2", 7200⟩⟩

/-- A listed mail item with id `m1`. -/
def mail1 : List (String × JsValue) := [("id", .str "m1"), ("categories", .arr [.str "Red"])]

/-- A listed mail item with id `m2`. -/
def mail2 : List (String × JsValue) := [("id", .str "m2"), ("subject", .str "hello")]

/-- A listed mail item with id `m3`. -/
def mail3 : List (String × JsValue) := [("subject", .null), ("id", .str "m3")]

/-- Three mail items as the provider lists them. -/
def sampleMails : List (List (String × JsValue)) := [mail1, mail2, mail3]

/-- A provider that accepts the code `abc` and the refresh token `rt-1`,
lists `sampleMails`, deletes `m1`, `m2` and `m3`, and reports every other
message as not found. -/
def sampleWorld : World where
  redirectUri := some "http://localhost:4000/auth/callback"
  getToken := fun _ o => if o.code = some "abc" then .ok issuedToken else .error "invalid_grant"
  refresh := fun _ t =>
    if t.token.refresh_token = "rt-1" then .ok refreshedToken else .error "refresh token revoked"
  fetch := fun _ r =>
    match r.method with
    | .GET => .ok ⟨200, .ok "", .ok (.obj [("value", .arr (sampleMails.map .obj))])⟩
    | .DELETE =>
      if r.url = messageUrl "m1" ∨ r.url = messageUrl "m2" ∨ r.url = messageUrl "m3" then
        .ok ⟨204, .ok "", .error "Unexpected end of JSON input"⟩
      else .ok ⟨404, .ok "ErrorItemNotFound", .ok (.obj [("error", .str "ErrorItemNotFound")])⟩

/-- The sample provider, except that the connection drops on the delete of
`m2`. -/
def flakyWorld : World :=
  { sampleWorld with
    fetch := fun h r =>
      if r.url = messageUrl "m2" then .error "socket hang up" else sampleWorld.fetch h r }

/-- The sample provider, except that the mail API rejects every request with
status 401 and a JSON error document. -/
def deniedWorld : World :=
  { sampleWorld with
    fetch := fun _ _ =>
      .ok ⟨401, .ok "InvalidAuthenticationToken",
        .ok (.obj [("error", .obj [("code", .str "InvalidAuthenticationToken")])])⟩ }

/-- The sample provider, except that a successful exchange issues token data
whose access token is the empty string. -/
def emptyTokenWorld : World :=
  { sampleWorld with getToken := fun _ _ => .ok ⟨⟨"", "rt-1", 3600⟩⟩ }

/-- The sample provider, except that the mail API answers every request with
the given status and body text, which is not JSON. -/
def statusWorld (status : Nat) (body : String) : World :=
  { sampleWorld with
    fetch := fun _ _ => .ok ⟨status, .ok body, .error "Unexpected token in JSON"⟩ }

/-- The sample provider, except that the list query is answered as given
(an answer, or a thrown error). -/
def listWorld (answer : Except String FetchResponse) : World :=
  { sampleWorld with
    fetch := fun h r =>
      match r.method with
      | .GET => answer
      | .DELETE => sampleWorld.fetch h r }

/-! ## Token Manager -/

/-- C1: when the store holds a Credential whose expiry has passed and the
refresh exchange succeeds, `getValidAccessToken` issues exactly one external
call, the refresh of the held Credential, replaces the stored Credential by
the one the refresh returned, and returns the access token of the new
Credential. -/
theorem getValidAccessToken_refreshes_expired (w : World) (now : Nat) (s : State)
    (held fresh : AccessToken) (hstore : s.tokenStore = some held)
    (hexpired : held.token.expires_at ≤ now)
    (hrefresh : w.refresh s.trace held = .ok fresh) :
    getValidAccessToken w now s
      = (.ok fresh.token.access_token, ⟨some fresh, s.trace ++ [Call.refresh held]⟩) := by
  simp [getValidAccessToken, hstore, AccessToken.expired, hexpired, hrefresh, State.log]

theorem getValidAccessToken_refreshes_expired_witness :
    issuedToken.token.expires_at ≤ 4000 ∧
    getValidAccessToken sampleWorld 4000 ⟨some issuedToken, []⟩
      = (.ok "at-2", ⟨some refreshedToken, [Call.refresh issuedToken]⟩) :=
  ⟨by decide,
    getValidAccessToken_refreshes_expired sampleWorld 4000 ⟨some issuedToken, []⟩
      issuedToken refreshedToken rfl (by decide) rfl⟩

/-- C2: when the store holds a Credential whose expiry has passed and the
refresh exchange fails, `getValidAccessToken` throws that error, having
issued exactly one external call (the refresh, not retried), and the store
still holds the expired Credential. -/
theorem getValidAccessToken_refresh_failure (w : World) (now : Nat) (s : State)
    (held : AccessToken) (message : String) (hstore : s.tokenStore = some held)
    (hexpired : held.token.expires_at ≤ now)
    (hrefresh : w.refresh s.trace held = .error message) :
    getValidAccessToken w now s
      = (.error message, ⟨some held, s.trace ++ [Call.refresh held]⟩) := by
  simp [getValidAccessToken, hstore, AccessToken.expired, hexpired, hrefresh, State.log]

theorem getValidAccessToken_refresh_failure_witness :
    refreshedToken.token.expires_at ≤ 9000 ∧
    getValidAccessToken sampleWorld 9000 ⟨some refreshedToken, []⟩
      = (.error "refresh token revoked", ⟨some refreshedToken, [Call.refresh refreshedToken]⟩) :=
  ⟨by decide,
    getValidAccessToken_refresh_failure sampleWorld 9000 ⟨some refreshedToken, []⟩
      refreshedToken "refresh token revoked" rfl (by decide) rfl⟩

/-- C3: while the store is empty, each of the three mail routes responds with
status 500 and the body `No token stored, please authenticate first`, and
leaves the state as it was: no external call is issued and the store stays
empty.  The handlers are total functions, so the error never escapes. -/
theorem mail_routes_unauthenticated (w : World) (now : Nat) (messageId : String) (s : State)
    (hstore : s.tokenStore = none) :
    mailsRed w now s = (⟨500, .text "No token stored, please authenticate first"⟩, s) ∧
    deleteMail w now messageId s
      = (⟨500, .text "No token stored, please authenticate first"⟩, s) ∧
    deleteAll w now s = (⟨500, .text "No token stored, please authenticate first"⟩, s) := by
  simp [mailsRed, deleteMail, deleteAll, getValidAccessToken, hstore, sendError]

theorem mail_routes_unauthenticated_witness :
    mailsRed sampleWorld 0 State.initial
      = (⟨500, .text "No token stored, please authenticate first"⟩, State.initial) ∧
    deleteMail sampleWorld 0 "m1" State.initial
      = (⟨500, .text "No token stored, please authenticate first"⟩, State.initial) ∧
    deleteAll sampleWorld 0 State.initial
      = (⟨500, .text "No token stored, please authenticate first"⟩, State.initial) :=
  mail_routes_unauthenticated sampleWorld 0 "m1" State.initial rfl

/-! ## Authorization-code exchange -/

/-- C4: for every authorization code and every prior state, the callback
issues one exchange call; if the exchange succeeds it responds 200 and the
store holds a Credential carrying exactly the token data the provider issued
(access token, refresh token, expiry), whatever it held before; if the
exchange fails it responds 500 and the store is what it was before. -/
theorem authCallback_store (w : World) (code : Option String) (s : State) :
    (authCallback w code s).2.trace = s.trace ++ [Call.getToken ⟨code, w.redirectUri, scope⟩] ∧
    match w.getToken s.trace ⟨code, w.redirectUri, scope⟩ with
    | .ok accessToken =>
      (authCallback w code s).1 = ⟨200, .text "Auth successful! You can close this tab."⟩ ∧
      (authCallback w code s).2.tokenStore
        = some ⟨⟨accessToken.token.access_token, accessToken.token.refresh_token,
            accessToken.token.expires_at⟩⟩
    | .error _ =>
      (authCallback w code s).1.status = 500 ∧
      (authCallback w code s).2.tokenStore = s.tokenStore := by
  cases h : w.getToken s.trace ⟨code, w.redirectUri, scope⟩ <;>
    simp [authCallback, h, State.log, createToken]

/-- C5 fails as stated: a successful exchange may issue token data whose
access token is empty, and `getValidAccessToken`, called before the expiry,
then returns the empty string. -/
theorem getValidAccessToken_returns_empty_token :
    emptyTokenWorld.getToken State.initial.trace
        ⟨some "abc", emptyTokenWorld.redirectUri, scope⟩ = .ok ⟨⟨"", "rt-1", 3600⟩⟩ ∧
    (authCallback emptyTokenWorld (some "abc") State.initial).1.status = 200 ∧
    (getValidAccessToken emptyTokenWorld 100
        (authCallback emptyTokenWorld (some "abc") State.initial).2).1 = .ok "" := by
  refine ⟨rfl, rfl, rfl⟩

/-- C5, amended: after a successful authorization-code exchange,
`getValidAccessToken`, called while the stored Credential is not expired,
returns the access token the provider issued, whatever it is, issues no
external call (so no refresh) and leaves the stored Credential, the one just
issued, unchanged. -/
theorem getValidAccessToken_after_exchange (w : World) (code : Option String) (s : State)
    (now : Nat) (issued : AccessToken)
    (hexchange : w.getToken s.trace ⟨code, w.redirectUri, scope⟩ = .ok issued)
    (hvalid : now < issued.token.expires_at) :
    getValidAccessToken w now (authCallback w code s).2
      = (.ok issued.token.access_token,
          ⟨some issued, s.trace ++ [Call.getToken ⟨code, w.redirectUri, scope⟩]⟩) ∧
    (authCallback w code s).2
      = ⟨some issued, s.trace ++ [Call.getToken ⟨code, w.redirectUri, scope⟩]⟩ := by
  refine ⟨?_, ?_⟩
  · simp [authCallback, hexchange, getValidAccessToken, AccessToken.expired, createToken,
      State.log, Nat.not_le.mpr hvalid]
  · simp [authCallback, hexchange, createToken, State.log]

theorem getValidAccessToken_after_exchange_witness :
    100 < issuedToken.token.expires_at ∧
    getValidAccessToken sampleWorld 100 (authCallback sampleWorld (some "abc") State.initial).2
      = (.ok "at-1",
          ⟨some issuedToken,
            [] ++ [Call.getToken ⟨some "abc", sampleWorld.redirectUri, scope⟩]⟩) :=
  ⟨by decide,
    (getValidAccessToken_after_exchange sampleWorld (some "abc") State.initial 100 issuedToken
      rfl (by decide)).1⟩

/-! ## Mail Proxy: delete one, list by category -/

/-- C6 fails as stated: when the provider answers a delete with status 304
or 205 and a body, the route answers with that status and an empty body, not
with the provider's body. -/
theorem deleteMail_empties_body :
    (statusWorld 304 "not modified").fetch [] ⟨.DELETE, messageUrl "m1", bearer "at-1"⟩
      = .ok ⟨304, .ok "not modified", .error "Unexpected token in JSON"⟩ ∧
    (deleteMail (statusWorld 304 "not modified") 100 "m1" ⟨some issuedToken, []⟩).1
      = ⟨304, .text ""⟩ ∧
    (deleteMail (statusWorld 304 "not modified") 100 "m1" ⟨some issuedToken, []⟩).1
      ≠ ⟨304, .text "not modified"⟩ ∧
    (deleteMail (statusWorld 205 "reset") 100 "m1" ⟨some issuedToken, []⟩).1
      = ⟨205, .text ""⟩ ∧
    (deleteMail (statusWorld 205 "reset") 100 "m1" ⟨some issuedToken, []⟩).1
      ≠ ⟨205, .text "reset"⟩ := by
  have hne : ∀ (n : Nat) (t : String), t ≠ "" →
      (⟨n, .text ""⟩ : HttpResponse) ≠ ⟨n, .text t⟩ := by
    intro n t ht h
    have hbody : Body.text "" = Body.text t := congrArg HttpResponse.body h
    injection hbody with htext
    exact ht htext.symm
  refine ⟨rfl, rfl, ?_, rfl, ?_⟩
  · have h304 : (deleteMail (statusWorld 304 "not modified") 100 "m1"
        ⟨some issuedToken, []⟩).1 = ⟨304, .text ""⟩ := rfl
    rw [h304]
    exact hne 304 "not modified" (by decide)
  · have h205 : (deleteMail (statusWorld 205 "reset") 100 "m1"
        ⟨some issuedToken, []⟩).1 = ⟨205, .text ""⟩ := rfl
    rw [h205]
    exact hne 205 "reset" (by decide)

/-- C6, amended: for every message id, once `getValidAccessToken` has
produced a token the route `DELETE /mails/:id` issues exactly one further
external call, the delete of that id with that token; if the provider answers
with status 204 the route responds 200 with `Mail deleted successfully`; for
every other provider status with body text `b` the route responds with that
status, and with `b` unchanged unless the status is 205 or 304, for which the
body is empty. -/
theorem deleteMail_passes_status_through (w : World) (now : Nat) (messageId : String)
    (s s1 : State) (accessToken : String) (response : FetchResponse)
    (htoken : getValidAccessToken w now s = (.ok accessToken, s1))
    (hfetch : w.fetch s1.trace ⟨.DELETE, messageUrl messageId, bearer accessToken⟩
      = .ok response) :
    (deleteMail w now messageId s).2
      = ⟨s1.tokenStore,
          s1.trace ++ [Call.fetch ⟨.DELETE, "https://graph.microsoft.com/v1.0/me/messages/"
            ++ messageId, "Bearer " ++ accessToken⟩]⟩ ∧
    (response.status = 204 →
      (deleteMail w now messageId s).1 = ⟨200, .text "Mail deleted successfully"⟩) ∧
    (∀ b, response.status ≠ 204 → response.status ≠ 205 → response.status ≠ 304 →
      response.text = .ok b →
      (deleteMail w now messageId s).1 = ⟨response.status, .text b⟩) ∧
    (∀ b, response.status = 205 ∨ response.status = 304 → response.text = .ok b →
      (deleteMail w now messageId s).1 = ⟨response.status, .text ""⟩) := by
  refine ⟨?_, ?_, ?_, ?_⟩
  · by_cases h204 : response.status = 204
    · simp [deleteMail, htoken, hfetch, h204, State.log]
      simp [messageUrl, bearer]
    · cases htext : response.text <;>
        simp [deleteMail, htoken, hfetch, h204, htext, State.log] <;>
        simp [messageUrl, bearer]
  · intro h204
    simp [deleteMail, htoken, hfetch, h204]
  · intro b h204 h205 h304 htext
    simp [deleteMail, htoken, hfetch, h204, h205, h304, htext, send]
  · rintro b (h | h) htext <;>
      simp [deleteMail, htoken, hfetch, h, htext, send]

theorem deleteMail_passes_status_through_witness :
    (deleteMail sampleWorld 100 "m1" ⟨some issuedToken, []⟩).1
      = ⟨200, .text "Mail deleted successfully"⟩ ∧
    (deleteMail sampleWorld 100 "gone" ⟨some issuedToken, []⟩).1
      = ⟨404, .text "ErrorItemNotFound"⟩ ∧
    (deleteMail sampleWorld 100 "gone" ⟨some issuedToken, []⟩).2
      = ⟨some issuedToken, [Call.fetch ⟨.DELETE,
          "https://graph.microsoft.com/v1.0/me/messages/" ++ "gone", "Bearer " ++ "at-1"⟩]⟩ ∧
    (deleteMail (statusWorld 205 "reset") 100 "m1" ⟨some issuedToken, []⟩).1
      = ⟨205, .text ""⟩ :=
  ⟨(deleteMail_passes_status_through sampleWorld 100 "m1" ⟨some issuedToken, []⟩
      ⟨some issuedToken, []⟩ "at-1" ⟨204, .ok "", .error "Unexpected end of JSON input"⟩
      rfl rfl).2.1 rfl,
    (deleteMail_passes_status_through sampleWorld 100 "gone" ⟨some issuedToken, []⟩
      ⟨some issuedToken, []⟩ "at-1"
      ⟨404, .ok "ErrorItemNotFound", .ok (.obj [("error", .str "ErrorItemNotFound")])⟩
      rfl rfl).2.2.1 "ErrorItemNotFound" (by decide) (by decide) (by decide) rfl,
    (deleteMail_passes_status_through sampleWorld 100 "gone" ⟨some issuedToken, []⟩
      ⟨some issuedToken, []⟩ "at-1"
      ⟨404, .ok "ErrorItemNotFound", .ok (.obj [("error", .str "ErrorItemNotFound")])⟩
      rfl rfl).1,
    (deleteMail_passes_status_through (statusWorld 205 "reset") 100 "m1"
      ⟨some issuedToken, []⟩ ⟨some issuedToken, []⟩ "at-1"
      ⟨205, .ok "reset", .error "Unexpected token in JSON"⟩
      rfl rfl).2.2.2 "reset" (Or.inl rfl) rfl⟩

/-- C8: once `getValidAccessToken` has produced a token, `GET /mails/red`
issues exactly one further external call, the list query for category `Red`
with page size 50; when the provider's JSON object carries an array under
`value` the route responds 200 with that array unchanged, and when the array
is empty or `value` is absent it responds 200 with an empty array. -/
theorem mailsRed_returns_value (w : World) (now : Nat) (s s1 : State) (accessToken : String)
    (response : FetchResponse) (fields : List (String × JsValue))
    (htoken : getValidAccessToken w now s = (.ok accessToken, s1))
    (hfetch : w.fetch s1.trace ⟨.GET, listUrl, bearer accessToken⟩ = .ok response)
    (hjson : response.json = .ok (.obj fields)) :
    (mailsRed w now s).2
      = ⟨s1.tokenStore,
          s1.trace ++ [Call.fetch ⟨.GET,
            "https://graph.microsoft.com/v1.0/me/mailFolders/inbox/messages?$filter=categories/any(c:c eq \x27Red\x27)&$top=50",
            "Bearer " ++ accessToken⟩]⟩ ∧
    (∀ items, lookupField "value" fields = .arr items →
      (mailsRed w now s).1 = ⟨200, .json (.arr items)⟩) ∧
    (lookupField "value" fields = .arr [] ∨ lookupField "value" fields = .undefined →
      (mailsRed w now s).1 = ⟨200, .json (.arr [])⟩) := by
  refine ⟨?_, ?_, ?_⟩
  · simp [mailsRed, htoken, hfetch, hjson, getProp, State.log]
    simp [listUrl, bearer]
  · intro items hvalue
    simp [mailsRed, htoken, hfetch, hjson, getProp, hvalue, truthy]
  · rintro (hvalue | hvalue) <;>
      simp [mailsRed, htoken, hfetch, hjson, getProp, hvalue, truthy]

theorem mailsRed_returns_value_witness :
    (mailsRed sampleWorld 100 ⟨some issuedToken, []⟩).1
      = ⟨200, .json (.arr (sampleMails.map .obj))⟩ ∧
    (mailsRed sampleWorld 100 ⟨some issuedToken, []⟩).2
      = ⟨some issuedToken, [Call.fetch ⟨.GET,
          "https://graph.microsoft.com/v1.0/me/mailFolders/inbox/messages?$filter=categories/any(c:c eq \x27Red\x27)&$top=50",
          "Bearer " ++ "at-1"⟩]⟩ :=
  ⟨(mailsRed_returns_value sampleWorld 100 ⟨some issuedToken, []⟩ ⟨some issuedToken, []⟩ "at-1"
      ⟨200, .ok "", .ok (.obj [("value", .arr (sampleMails.map .obj))])⟩
      [("value", .arr (sampleMails.map .obj))] rfl rfl rfl).2.1 (sampleMails.map .obj) rfl,
    (mailsRed_returns_value sampleWorld 100 ⟨some issuedToken, []⟩ ⟨some issuedToken, []⟩ "at-1"
      ⟨200, .ok "", .ok (.obj [("value", .arr (sampleMails.map .obj))])⟩
      [("value", .arr (sampleMails.map .obj))] rfl rfl rfl).1⟩

/-! ## Mail Proxy: delete all by category -/

/-- The loop runs to its end when no delete call throws: it issues one delete
call per item, in list order, and changes nothing else. -/
theorem deleteLoop_completes (w : World) (accessToken : String)
    (mails : List (List (String × JsValue))) (s : State)
    (hok : ∀ pre f post, mails = pre ++ f :: post →
      ∃ r, w.fetch (s.trace ++ pre.map (deleteCall accessToken))
        (deleteRequest accessToken (lookupField "id" f)) = .ok r) :
    deleteLoop w accessToken (mails.map .obj) s
      = (.ok (), ⟨s.tokenStore, s.trace ++ mails.map (deleteCall accessToken)⟩) := by
  induction mails generalizing s with
  | nil => simp [deleteLoop]
  | cons f rest ih =>
    obtain ⟨r, hr⟩ := hok [] f rest rfl
    have hrest : ∀ pre g post, rest = pre ++ g :: post →
        ∃ r, w.fetch ((s.log (deleteCall accessToken f)).trace ++ pre.map (deleteCall accessToken))
          (deleteRequest accessToken (lookupField "id" g)) = .ok r := by
      intro pre g post hsplit
      have := hok (f :: pre) g post (by simp [hsplit])
      simpa [State.log] using this
    simp only [List.map_nil, List.append_nil] at hr
    have hstep := ih (s.log (deleteCall accessToken f)) hrest
    simp only [List.map_cons, deleteLoop, getProp, hr]
    simp only [deleteCall] at hstep
    exact hstep.trans (by simp [State.log, deleteCall])

/-- The loop stops at the first delete call that throws: the calls for the
items before it and for it have been issued, none for the items after it. -/
theorem deleteLoop_aborts (w : World) (accessToken : String)
    (pre : List (List (String × JsValue))) (f : List (String × JsValue))
    (post : List (List (String × JsValue))) (s : State) (message : String)
    (hok : ∀ p g q, pre = p ++ g :: q →
      ∃ r, w.fetch (s.trace ++ p.map (deleteCall accessToken))
        (deleteRequest accessToken (lookupField "id" g)) = .ok r)
    (hthrow : w.fetch (s.trace ++ pre.map (deleteCall accessToken))
      (deleteRequest accessToken (lookupField "id" f)) = .error message) :
    deleteLoop w accessToken ((pre ++ f :: post).map .obj) s
      = (.error message,
          ⟨s.tokenStore, s.trace ++ (pre ++ [f]).map (deleteCall accessToken)⟩) := by
  induction pre generalizing s with
  | nil =>
    simp only [List.map_nil, List.append_nil] at hthrow
    simp [deleteLoop, getProp, hthrow, State.log, deleteCall]
  | cons g rest ih =>
    obtain ⟨r, hr⟩ := hok [] g rest rfl
    simp only [List.map_nil, List.append_nil] at hr
    have hrest : ∀ p h q, rest = p ++ h :: q →
        ∃ r, w.fetch ((s.log (deleteCall accessToken g)).trace ++ p.map (deleteCall accessToken))
          (deleteRequest accessToken (lookupField "id" h)) = .ok r := by
      intro p h q hsplit
      have := hok (g :: p) h q (by simp [hsplit])
      simpa [State.log] using this
    have hthrow2 : w.fetch
        ((s.log (deleteCall accessToken g)).trace ++ rest.map (deleteCall accessToken))
        (deleteRequest accessToken (lookupField "id" f)) = .error message := by
      simpa [State.log] using hthrow
    have hstep := ih (s.log (deleteCall accessToken g)) hrest hthrow2
    simp only [List.cons_append, List.map_cons, deleteLoop, getProp, hr]
    simp only [deleteCall] at hstep
    exact hstep.trans (by simp [State.log, deleteCall])

/-- The loop over items that start with objects whose delete calls do not
throw: it issues the delete calls for those objects and goes on with the
items after them. -/
theorem deleteLoop_after_objects (w : World) (accessToken : String)
    (pre : List (List (String × JsValue))) (rest : List JsValue) (s : State)
    (hok : ∀ p g q, pre = p ++ g :: q →
      ∃ r, w.fetch (s.trace ++ p.map (deleteCall accessToken))
        (deleteRequest accessToken (lookupField "id" g)) = .ok r) :
    deleteLoop w accessToken (pre.map .obj ++ rest) s
      = deleteLoop w accessToken rest
          ⟨s.tokenStore, s.trace ++ pre.map (deleteCall accessToken)⟩ := by
  induction pre generalizing s with
  | nil => simp
  | cons g tail ih =>
    obtain ⟨r, hr⟩ := hok [] g tail rfl
    simp only [List.map_nil, List.append_nil] at hr
    have htail : ∀ p h q, tail = p ++ h :: q →
        ∃ r, w.fetch ((s.log (deleteCall accessToken g)).trace ++ p.map (deleteCall accessToken))
          (deleteRequest accessToken (lookupField "id" h)) = .ok r := by
      intro p h q hsplit
      have := hok (g :: p) h q (by simp [hsplit])
      simpa [State.log] using this
    have hstep := ih (s.log (deleteCall accessToken g)) htail
    simp only [List.cons_append, List.map_cons, deleteLoop, getProp, hr]
    simp only [deleteCall] at hstep
    exact hstep.trans (by simp [State.log, deleteCall])

/-- C7: when the provider lists N items (objects, under `value`) and no
delete call throws, `DELETE /mails/red/delete-all` issues, after the list
query, exactly N delete calls, in list order, the i-th for the `id` of the
i-th item, all with the token `getValidAccessToken` produced, and responds
200 with `Deleted N Red category mails`; the responses of the delete calls
are not looked at. -/
theorem deleteAll_deletes_each_listed (w : World) (now : Nat) (s s1 : State)
    (accessToken : String) (response : FetchResponse) (fields : List (String × JsValue))
    (mails : List (List (String × JsValue)))
    (htoken : getValidAccessToken w now s = (.ok accessToken, s1))
    (hfetch : w.fetch s1.trace ⟨.GET, listUrl, bearer accessToken⟩ = .ok response)
    (hjson : response.json = .ok (.obj fields))
    (hvalue : lookupField "value" fields = .arr (mails.map .obj))
    (hok : ∀ pre f post, mails = pre ++ f :: post →
      ∃ r, w.fetch
        (s1.trace ++ Call.fetch ⟨.GET, listUrl, bearer accessToken⟩
          :: pre.map (deleteCall accessToken))
        ⟨.DELETE, messageUrl (templateStr (lookupField "id" f)), bearer accessToken⟩ = .ok r) :
    deleteAll w now s
      = (⟨200, .text ("Deleted " ++ toString mails.length ++ " Red category mails")⟩,
          ⟨s1.tokenStore,
            s1.trace ++ Call.fetch ⟨.GET, listUrl, bearer accessToken⟩
              :: mails.map fun f => Call.fetch
                ⟨.DELETE, messageUrl (templateStr (lookupField "id" f)), bearer accessToken⟩⟩) := by
  have hloop := deleteLoop_completes w accessToken mails
    (s1.log (.fetch ⟨.GET, listUrl, bearer accessToken⟩))
    (by
      intro pre f post hsplit
      obtain ⟨r, hr⟩ := hok pre f post hsplit
      exact ⟨r, by simpa [State.log, deleteRequest] using hr⟩)
  simp only [deleteAll, htoken, hfetch, hjson, getProp, hvalue, truthy, if_true, iterate, hloop]
  simp [State.log, lengthOf, templateStr, deleteCall, deleteRequest]

theorem deleteAll_deletes_each_listed_witness :
    deleteAll sampleWorld 100 ⟨some issuedToken, []⟩
      = (⟨200, .text ("Deleted " ++ toString sampleMails.length ++ " Red category mails")⟩,
          ⟨some issuedToken,
            [] ++ Call.fetch ⟨.GET, listUrl, bearer "at-1"⟩
              :: sampleMails.map fun f => Call.fetch
                ⟨.DELETE, messageUrl (templateStr (lookupField "id" f)), bearer "at-1"⟩⟩) :=
  deleteAll_deletes_each_listed sampleWorld 100 ⟨some issuedToken, []⟩ ⟨some issuedToken, []⟩
    "at-1" ⟨200, .ok "", .ok (.obj [("value", .arr (sampleMails.map .obj))])⟩
    [("value", .arr (sampleMails.map .obj))] sampleMails rfl rfl rfl rfl
    (by
      intro pre f post _
      simp only [sampleWorld]
      split_ifs <;> exact ⟨_, rfl⟩)

/-- C10: when the provider lists N items (objects, under `value`) and the
k-th delete call is the first to throw, `DELETE /mails/red/delete-all` has
issued exactly k delete calls, for the items 1 to k in list order, issues
none for the items after the k-th, and responds 500 with the message of the
thrown error. -/
theorem deleteAll_aborts_on_throw (w : World) (now : Nat) (s s1 : State)
    (accessToken : String) (response : FetchResponse) (fields : List (String × JsValue))
    (pre : List (List (String × JsValue))) (f : List (String × JsValue))
    (post : List (List (String × JsValue))) (message : String)
    (htoken : getValidAccessToken w now s = (.ok accessToken, s1))
    (hfetch : w.fetch s1.trace ⟨.GET, listUrl, bearer accessToken⟩ = .ok response)
    (hjson : response.json = .ok (.obj fields))
    (hvalue : lookupField "value" fields = .arr ((pre ++ f :: post).map .obj))
    (hok : ∀ p g q, pre = p ++ g :: q →
      ∃ r, w.fetch
        (s1.trace ++ Call.fetch ⟨.GET, listUrl, bearer accessToken⟩
          :: p.map (deleteCall accessToken))
        ⟨.DELETE, messageUrl (templateStr (lookupField "id" g)), bearer accessToken⟩ = .ok r)
    (hthrow : w.fetch
        (s1.trace ++ Call.fetch ⟨.GET, listUrl, bearer accessToken⟩
          :: pre.map (deleteCall accessToken))
        ⟨.DELETE, messageUrl (templateStr (lookupField "id" f)), bearer accessToken⟩
      = .error message) :
    deleteAll w now s
      = (⟨500, .text message⟩,
          ⟨s1.tokenStore,
            s1.trace ++ Call.fetch ⟨.GET, listUrl, bearer accessToken⟩
              :: (pre ++ [f]).map fun g => Call.fetch
                ⟨.DELETE, messageUrl (templateStr (lookupField "id" g)), bearer accessToken⟩⟩) := by
  have hloop := deleteLoop_aborts w accessToken pre f post
    (s1.log (.fetch ⟨.GET, listUrl, bearer accessToken⟩)) message
    (by
      intro p g q hsplit
      obtain ⟨r, hr⟩ := hok p g q hsplit
      exact ⟨r, by simpa [State.log, deleteRequest] using hr⟩)
    (by simpa [State.log, deleteRequest] using hthrow)
  simp only [deleteAll, htoken, hfetch, hjson, getProp, hvalue, truthy, if_true, iterate, hloop]
  simp [State.log, sendError, deleteCall, deleteRequest]

theorem deleteAll_aborts_on_throw_witness :
    deleteAll flakyWorld 100 ⟨some issuedToken, []⟩
      = (⟨500, .text "socket hang up"⟩,
          ⟨some issuedToken,
            [] ++ Call.fetch ⟨.GET, listUrl, bearer "at-1"⟩
              :: ([mail1] ++ [mail2]).map fun g => Call.fetch
                ⟨.DELETE, messageUrl (templateStr (lookupField "id" g)), bearer "at-1"⟩⟩) :=
  deleteAll_aborts_on_throw flakyWorld 100 ⟨some issuedToken, []⟩ ⟨some issuedToken, []⟩
    "at-1" ⟨200, .ok "", .ok (.obj [("value", .arr (sampleMails.map .obj))])⟩
    [("value", .arr (sampleMails.map .obj))] [mail1] mail2 [mail3] "socket hang up"
    rfl rfl rfl rfl
    (by
      intro p g q hsplit
      rcases p with _ | ⟨a, p⟩
      · simp only [List.nil_append, List.cons.injEq] at hsplit
        obtain ⟨rfl, -⟩ := hsplit
        exact ⟨_, rfl⟩
      · simp at hsplit)
    rfl

/-! ## Error handling at the route boundary -/

/-- C9 fails for the callback: when the exchange throws `invalid_grant`, the
body of the 500 response is the fixed text `Authentication failed`, not the
message of the underlying error. -/
theorem authCallback_hides_message :
    sampleWorld.getToken State.initial.trace ⟨some "bad", sampleWorld.redirectUri, scope⟩
      = .error "invalid_grant" ∧
    (authCallback sampleWorld (some "bad") State.initial).1
      = ⟨500, .text "Authentication failed"⟩ ∧
    (authCallback sampleWorld (some "bad") State.initial).1 ≠ sendError "invalid_grant" := by
  refine ⟨rfl, rfl, ?_⟩
  intro h
  have hbody : Body.text "Authentication failed" = Body.text "invalid_grant" :=
    congrArg HttpResponse.body h
  injection hbody with htext
  exact absurd htext (by decide)

/-- C9, amended: a failed exchange makes the callback respond 500 with the
fixed body `Authentication failed`.  On `GET /mails/red` and on
`DELETE /mails/red/delete-all` every error thrown inside the handler makes
the route respond 500 with the message of that error: an error thrown by
`getValidAccessToken` (no Credential stored, or the refresh failed), by the
list `fetch`, by `response.json()`, or by reading `value` from a `null`
document; and, on `DELETE /mails/red/delete-all` only, by iterating a truthy
`value` that is neither an array nor a string, by reading `id` from a `null`
item, or by the `fetch` of a delete call. -/
theorem route_failures_answer_500 (w : World) (now : Nat) (s : State) :
    (∀ code message, w.getToken s.trace ⟨code, w.redirectUri, scope⟩ = .error message →
      (authCallback w code s).1 = ⟨500, .text "Authentication failed"⟩) ∧
    (∀ message, (getValidAccessToken w now s).1 = .error message →
      (mailsRed w now s).1 = ⟨500, .text message⟩ ∧
      (deleteAll w now s).1 = ⟨500, .text message⟩) ∧
    (∀ accessToken s1 message, getValidAccessToken w now s = (.ok accessToken, s1) →
      w.fetch s1.trace ⟨.GET, listUrl, bearer accessToken⟩ = .error message →
      (mailsRed w now s).1 = ⟨500, .text message⟩ ∧
      (deleteAll w now s).1 = ⟨500, .text message⟩) ∧
    (∀ accessToken s1 response message, getValidAccessToken w now s = (.ok accessToken, s1) →
      w.fetch s1.trace ⟨.GET, listUrl, bearer accessToken⟩ = .ok response →
      response.json = .error message →
      (mailsRed w now s).1 = ⟨500, .text message⟩ ∧
      (deleteAll w now s).1 = ⟨500, .text message⟩) ∧
    (∀ accessToken s1 response, getValidAccessToken w now s = (.ok accessToken, s1) →
      w.fetch s1.trace ⟨.GET, listUrl, bearer accessToken⟩ = .ok response →
      response.json = .ok .null →
      (mailsRed w now s).1
        = ⟨500, .text "Cannot read properties of null (reading \x27value\x27)"⟩ ∧
      (deleteAll w now s).1
        = ⟨500, .text "Cannot read properties of null (reading \x27value\x27)"⟩) ∧
    (∀ accessToken s1 response data value,
      getValidAccessToken w now s = (.ok accessToken, s1) →
      w.fetch s1.trace ⟨.GET, listUrl, bearer accessToken⟩ = .ok response →
      response.json = .ok data → getProp data "value" = .ok value →
      truthy value = true → (∀ items, value ≠ .arr items) → (∀ t, value ≠ .str t) →
      (deleteAll w now s).1 = ⟨500, .text "mails is not iterable"⟩) ∧
    (∀ accessToken s1 response data pre post,
      getValidAccessToken w now s = (.ok accessToken, s1) →
      w.fetch s1.trace ⟨.GET, listUrl, bearer accessToken⟩ = .ok response →
      response.json = .ok data →
      getProp data "value" = .ok (.arr (pre.map .obj ++ .null :: post)) →
      (∀ p g q, pre = p ++ g :: q →
        ∃ r, w.fetch
          (s1.trace ++ Call.fetch ⟨.GET, listUrl, bearer accessToken⟩
            :: p.map (deleteCall accessToken))
          ⟨.DELETE, messageUrl (templateStr (lookupField "id" g)), bearer accessToken⟩
          = .ok r) →
      (deleteAll w now s).1
        = ⟨500, .text "Cannot read properties of null (reading \x27id\x27)"⟩) ∧
    (∀ accessToken s1 response data pre f post message,
      getValidAccessToken w now s = (.ok accessToken, s1) →
      w.fetch s1.trace ⟨.GET, listUrl, bearer accessToken⟩ = .ok response →
      response.json = .ok data →
      getProp data "value" = .ok (.arr ((pre ++ f :: post).map .obj)) →
      (∀ p g q, pre = p ++ g :: q →
        ∃ r, w.fetch
          (s1.trace ++ Call.fetch ⟨.GET, listUrl, bearer accessToken⟩
            :: p.map (deleteCall accessToken))
          ⟨.DELETE, messageUrl (templateStr (lookupField "id" g)), bearer accessToken⟩
          = .ok r) →
      w.fetch
          (s1.trace ++ Call.fetch ⟨.GET, listUrl, bearer accessToken⟩
            :: pre.map (deleteCall accessToken))
          ⟨.DELETE, messageUrl (templateStr (lookupField "id" f)), bearer accessToken⟩
        = .error message →
      (deleteAll w now s).1 = ⟨500, .text message⟩) := by
  refine ⟨?_, ?_, ?_, ?_, ?_, ?_, ?_, ?_⟩
  · intro code message hexchange
    simp [authCallback, hexchange]
  · intro message hthrown
    rcases hresult : getValidAccessToken w now s with ⟨result, s1⟩
    rw [hresult] at hthrown
    simp only at hthrown
    subst hthrown
    simp [mailsRed, deleteAll, hresult, sendError]
  · intro accessToken s1 message htoken hfetch
    simp [mailsRed, deleteAll, htoken, hfetch, sendError]
  · intro accessToken s1 response message htoken hfetch hjson
    simp [mailsRed, deleteAll, htoken, hfetch, hjson, sendError]
  · intro accessToken s1 response htoken hfetch hjson
    have hmessage : "Cannot read properties of null (reading \x27" ++ "value" ++ "\x27)"
        = "Cannot read properties of null (reading \x27value\x27)" := by decide
    simp [mailsRed, deleteAll, htoken, hfetch, hjson, getProp, sendError, hmessage]
  · intro accessToken s1 response data value htoken hfetch hjson hvalue htruthy harr hstr
    have hiter : iterate value = .error "mails is not iterable" := by
      cases value with
      | arr items => exact absurd rfl (harr items)
      | str t => exact absurd rfl (hstr t)
      | _ => rfl
    simp [deleteAll, htoken, hfetch, hjson, hvalue, htruthy, hiter, sendError]
  · intro accessToken s1 response data pre post htoken hfetch hjson hvalue hok
    have hloop := deleteLoop_after_objects w accessToken pre (.null :: post)
      (s1.log (.fetch ⟨.GET, listUrl, bearer accessToken⟩))
      (by
        intro p g q hsplit
        obtain ⟨r, hr⟩ := hok p g q hsplit
        exact ⟨r, by simpa [State.log, deleteRequest] using hr⟩)
    have hmessage : "Cannot read properties of null (reading \x27" ++ "id" ++ "\x27)"
        = "Cannot read properties of null (reading \x27id\x27)" := by decide
    simp only [deleteAll, htoken, hfetch, hjson, hvalue, truthy, if_true, iterate, hloop]
    simp [deleteLoop, getProp, sendError, hmessage]
  · intro accessToken s1 response data pre f post message htoken hfetch hjson hvalue hok hthrow
    have hloop := deleteLoop_aborts w accessToken pre f post
      (s1.log (.fetch ⟨.GET, listUrl, bearer accessToken⟩)) message
      (by
        intro p g q hsplit
        obtain ⟨r, hr⟩ := hok p g q hsplit
        exact ⟨r, by simpa [State.log, deleteRequest] using hr⟩)
      (by simpa [State.log, deleteRequest] using hthrow)
    simp only [deleteAll, htoken, hfetch, hjson, hvalue, truthy, if_true, iterate, hloop]
    simp [sendError]

theorem route_failures_answer_500_witness :
    (authCallback sampleWorld (some "bad") State.initial).1
      = ⟨500, .text "Authentication failed"⟩ ∧
    (mailsRed sampleWorld 9000 ⟨some refreshedToken, []⟩).1
      = ⟨500, .text "refresh token revoked"⟩ ∧
    (deleteAll flakyWorld 0 State.initial).1
      = ⟨500, .text "No token stored, please authenticate first"⟩ ∧
    (mailsRed (listWorld (.error "connect ECONNREFUSED")) 100 ⟨some issuedToken, []⟩).1
      = ⟨500, .text "connect ECONNREFUSED"⟩ ∧
    (deleteAll (listWorld (.ok ⟨502, .ok "Bad Gateway", .error "Unexpected token B in JSON"⟩))
        100 ⟨some issuedToken, []⟩).1
      = ⟨500, .text "Unexpected token B in JSON"⟩ ∧
    (mailsRed (listWorld (.ok ⟨200, .ok "null", .ok .null⟩)) 100 ⟨some issuedToken, []⟩).1
      = ⟨500, .text "Cannot read properties of null (reading \x27value\x27)"⟩ ∧
    (deleteAll (listWorld (.ok ⟨200, .ok "", .ok (.obj [("value", .num "5")])⟩))
        100 ⟨some issuedToken, []⟩).1
      = ⟨500, .text "mails is not iterable"⟩ ∧
    (deleteAll
        (listWorld (.ok ⟨200, .ok "", .ok (.obj [("value", .arr [.obj mail1, .null, .obj mail3])])⟩))
        100 ⟨some issuedToken, []⟩).1
      = ⟨500, .text "Cannot read properties of null (reading \x27id\x27)"⟩ ∧
    (deleteAll flakyWorld 100 ⟨some issuedToken, []⟩).1 = ⟨500, .text "socket hang up"⟩ :=
  ⟨(route_failures_answer_500 sampleWorld 0 State.initial).1 (some "bad") "invalid_grant" rfl,
    ((route_failures_answer_500 sampleWorld 9000 ⟨some refreshedToken, []⟩).2.1
      "refresh token revoked" rfl).1,
    ((route_failures_answer_500 flakyWorld 0 State.initial).2.1
      "No token stored, please authenticate first" rfl).2,
    ((route_failures_answer_500 (listWorld (.error "connect ECONNREFUSED")) 100
      ⟨some issuedToken, []⟩).2.2.1 "at-1" ⟨some issuedToken, []⟩ "connect ECONNREFUSED"
      rfl rfl).1,
    ((route_failures_answer_500
      (listWorld (.ok ⟨502, .ok "Bad Gateway", .error "Unexpected token B in JSON"⟩)) 100
      ⟨some issuedToken, []⟩).2.2.2.1 "at-1" ⟨some issuedToken, []⟩
      ⟨502, .ok "Bad Gateway", .error "Unexpected token B in JSON"⟩
      "Unexpected token B in JSON" rfl rfl rfl).2,
    ((route_failures_answer_500 (listWorld (.ok ⟨200, .ok "null", .ok .null⟩)) 100
      ⟨some issuedToken, []⟩).2.2.2.2.1 "at-1" ⟨some issuedToken, []⟩
      ⟨200, .ok "null", .ok .null⟩ rfl rfl rfl).1,
    (route_failures_answer_500
      (listWorld (.ok ⟨200, .ok "", .ok (.obj [("value", .num "5")])⟩)) 100
      ⟨some issuedToken, []⟩).2.2.2.2.2.1 "at-1" ⟨some issuedToken, []⟩
      ⟨200, .ok "", .ok (.obj [("value", .num "5")])⟩ (.obj [("value", .num "5")]) (.num "5")
      rfl rfl rfl rfl rfl (fun _ h => JsValue.noConfusion h) (fun _ h => JsValue.noConfusion h),
    (route_failures_answer_500
      (listWorld (.ok ⟨200, .ok "", .ok (.obj [("value", .arr [.obj mail1, .null, .obj mail3])])⟩))
      100 ⟨some issuedToken, []⟩).2.2.2.2.2.2.1 "at-1" ⟨some issuedToken, []⟩
      ⟨200, .ok "", .ok (.obj [("value", .arr [.obj mail1, .null, .obj mail3])])⟩
      (.obj [("value", .arr [.obj mail1, .null, .obj mail3])]) [mail1] [.obj mail3]
      rfl rfl rfl rfl
      (by
        intro p g q hsplit
        rcases p with _ | ⟨a, p⟩
        · simp only [List.nil_append, List.cons.injEq] at hsplit
          obtain ⟨rfl, -⟩ := hsplit
          exact ⟨_, rfl⟩
        · simp at hsplit),
    (route_failures_answer_500 flakyWorld 100 ⟨some issuedToken, []⟩).2.2.2.2.2.2.2
      "at-1" ⟨some issuedToken, []⟩
      ⟨200, .ok "", .ok (.obj [("value", .arr (sampleMails.map .obj))])⟩
      (.obj [("value", .arr (sampleMails.map .obj))]) [mail1] mail2 [mail3] "socket hang up"
      rfl rfl rfl rfl
      (by
        intro p g q hsplit
        rcases p with _ | ⟨a, p⟩
        · simp only [List.nil_append, List.cons.injEq] at hsplit
          obtain ⟨rfl, -⟩ := hsplit
          exact ⟨_, rfl⟩
        · simp at hsplit)
      rfl⟩

/-- A non-success status of the list query is not a failure for
`GET /mails/red`: the status is never read, so a 401 answer whose JSON
document has no `value` member gives a 200 response with an empty array. -/
theorem mailsRed_ignores_list_status :
    (mailsRed deniedWorld 100 ⟨some issuedToken, []⟩).1 = ⟨200, .json (.arr [])⟩ ∧
    (deleteAll deniedWorld 100 ⟨some issuedToken, []⟩).1
      = ⟨200, .text "Deleted 0 Red category mails"⟩ := by
  constructor <;> rfl

end FinShield
